import Mathlib

/-!
Verification of the `digitalocean-deno` client library (TypeScript/Deno).

The development shallowly embeds the transport layer
(`src/lib/request-tool.ts`) and the block-storage / floating-IP action
services (`src/lib/services/block-storage-actions-service.ts`,
`src/lib/services/floating-ip-actions-service.ts`) in Lean.

JavaScript runtime values are modelled by `JsVal`; the host primitives
`JSON.stringify` / `JSON.parse` are embedded as the total functions
`jsonStringify` / `jsonParse` (integral numbers, the common string escapes; a
subset of full JSON sufficient for every statement below).  The network is a
parameter `net : SentRequest → Response`: the response the host `fetch`
returns for the request that was issued.  A call's outcome is a pair
`Option SentRequest × QueryOutcome`: the first component is the request that
went on the wire (`none` = no network I/O happened), the second the
settled promise (resolved value, classified rejection, or an exception
thrown before `fetch` ran).
-/

/-- A JavaScript runtime value, as far as the embedded code observes it.
`jsUndefined` is the JS `undefined`; `jsCyclic` stands for any object graph
containing a reference cycle — the one shape an inductive type cannot carry
directly — on which the host `JSON.stringify` throws a `TypeError`. -/
inductive JsVal where
  | jsUndefined
  | jsNull
  | jsBool (b : Bool)
  | jsNum (n : Int)
  | jsStr (s : String)
  | jsArr (elems : List JsVal)
  | jsObj (fields : List (String × JsVal))
  | jsCyclic
deriving Repr, Inhabited

/-- JavaScript truthiness (`if (x)`, `!x`): `undefined`, `null`, `false`,
`0` and the empty string are falsy; every object is truthy. -/
def jsTruthy : JsVal → Bool
  | .jsUndefined => false
  | .jsNull => false
  | .jsBool b => b
  | .jsNum n => n != 0
  | .jsStr s => s != ""
  | .jsArr _ => true
  | .jsObj _ => true
  | .jsCyclic => true

/-- JavaScript `ToString` on the values the embedded code can feed to it
(the transport only ever applies it to `null`). -/
def jsToString : JsVal → String
  | .jsUndefined => "undefined"
  | .jsNull => "null"
  | .jsBool b => if b then "true" else "false"
  | .jsNum n => toString n
  | .jsStr s => s
  | .jsArr _ => ""
  | .jsObj _ => "[object Object]"
  | .jsCyclic => "[object Object]"

/-! ### `JSON.stringify` -/

/-- Escape one character for a JSON string literal. -/
def escapeChar (c : Char) : String :=
  if c = '"' then "\\\""
  else if c = '\\' then "\\\\"
  else if c = '\n' then "\\n"
  else if c = '\t' then "\\t"
  else if c = '\r' then "\\r"
  else String.singleton c

/-- Escape a whole string for a JSON string literal. -/
def escapeString (s : String) : String :=
  String.join (s.toList.map escapeChar)

mutual

/-- Embedding of the host `JSON.stringify` on a defined value: `none` models
the `TypeError` thrown when the value contains a reference cycle. -/
def jsonStringify : JsVal → Option String
  | .jsCyclic => none
  | .jsUndefined => some "null"
  | .jsNull => some "null"
  | .jsBool b => some (if b then "true" else "false")
  | .jsNum n => some (toString n)
  | .jsStr s => some ("\"" ++ escapeString s ++ "\"")
  | .jsArr es => (stringifyElems es).map (fun parts => "[" ++ String.intercalate "," parts ++ "]")
  | .jsObj fs => (stringifyFields fs).map (fun parts => "\x7b" ++ String.intercalate "," parts ++ "\x7d")

/-- Serialize array elements in order. -/
def stringifyElems : List JsVal → Option (List String)
  | [] => some []
  | e :: es => do
      let s ← jsonStringify e
      let rest ← stringifyElems es
      pure (s :: rest)

/-- Serialize object members in order; members whose value is `undefined`
are omitted, as `JSON.stringify` does. -/
def stringifyFields : List (String × JsVal) → Option (List String)
  | [] => some []
  | (k, v) :: fs =>
      match v with
      | .jsUndefined => stringifyFields fs
      | w => do
          let s ← jsonStringify w
          let rest ← stringifyFields fs
          pure (("\"" ++ escapeString k ++ "\":" ++ s) :: rest)

end

/-! ### `JSON.parse` -/

/-- Whitespace accepted between JSON tokens. -/
def isJsonWs (c : Char) : Bool :=
  [' ', '\t', '\n', '\r'].contains c

/-- Drop leading whitespace. -/
def skipWs (cs : List Char) : List Char :=
  cs.dropWhile isJsonWs

/-- Accumulate the numeric value of a run of decimal digits, most
significant digit first. -/
def digitRunVal (acc : Nat) : List Char → Nat
  | [] => acc
  | d :: ds => digitRunVal (10 * acc + (d.toNat - 48)) ds

/-- Resolve a one-character JSON escape (`\uXXXX` is not supported: inputs
using it fall outside the modelled JSON subset). -/
def unescapeChar (c : Char) : Option Char :=
  if c = '"' then some '"'
  else if c = '\\' then some '\\'
  else if c = '/' then some '/'
  else if c = 'n' then some '\n'
  else if c = 't' then some '\t'
  else if c = 'r' then some '\r'
  else if c = 'b' then some (Char.ofNat 8)
  else if c = 'f' then some (Char.ofNat 12)
  else none

/-- Parse the body of a JSON string literal, after the opening quote. -/
def parseStringBody (acc : List Char) : List Char → Option (String × List Char)
  | '"' :: rest => some (String.mk acc.reverse, rest)
  | '\\' :: c :: rest =>
      match unescapeChar c with
      | some d => parseStringBody (d :: acc) rest
      | none => none
  | c :: rest => if c = '\\' then none else parseStringBody (c :: acc) rest
  | [] => none

/-- Parse an integral JSON number after an optional leading minus sign
(fractions and exponent parts fall outside the modelled subset). -/
def parseIntAfterSign (neg : Bool) (cs : List Char) : Option (JsVal × List Char) :=
  let ds := cs.takeWhile Char.isDigit
  let rest := cs.dropWhile Char.isDigit
  if ds.isEmpty then none
  else
    match rest with
    | '.' :: _ => none
    | 'e' :: _ => none
    | 'E' :: _ => none
    | _ =>
        let magnitude : Int := digitRunVal 0 ds
        some (.jsNum (if neg then -magnitude else magnitude), rest)

mutual

/-- Fueled recursive-descent parser for one JSON value. -/
def parseVal : Nat → List Char → Option (JsVal × List Char)
  | 0, _ => none
  | fuel + 1, cs =>
      match skipWs cs with
      | 'n' :: 'u' :: 'l' :: 'l' :: rest => some (.jsNull, rest)
      | 't' :: 'r' :: 'u' :: 'e' :: rest => some (.jsBool true, rest)
      | 'f' :: 'a' :: 'l' :: 's' :: 'e' :: rest => some (.jsBool false, rest)
      | '"' :: rest => (parseStringBody [] rest).map (fun (s, r) => (.jsStr s, r))
      | '[' :: rest =>
          (match skipWs rest with
           | ']' :: r => some (.jsArr [], r)
           | r => (parseElems fuel r).map (fun (es, r') => (.jsArr es, r')))
      | '\x7b' :: rest =>
          (match skipWs rest with
           | '\x7d' :: r => some (.jsObj [], r)
           | r => (parseMembers fuel r).map (fun (fs, r') => (.jsObj fs, r')))
      | '-' :: rest => parseIntAfterSign true rest
      | c :: rest => if c.isDigit then parseIntAfterSign false (c :: rest) else none
      | [] => none

/-- Parse a comma-separated list of array elements up to `]`. -/
def parseElems : Nat → List Char → Option (List JsVal × List Char)
  | 0, _ => none
  | fuel + 1, cs => do
      let (v, rest) ← parseVal fuel cs
      match skipWs rest with
      | ',' :: r =>
          let (es, r') ← parseElems fuel r
          pure (v :: es, r')
      | ']' :: r => pure ([v], r)
      | _ => none

/-- Parse a comma-separated list of `"key": value` members up to the
closing brace. -/
def parseMembers : Nat → List Char → Option (List (String × JsVal) × List Char)
  | 0, _ => none
  | fuel + 1, cs =>
      match skipWs cs with
      | '"' :: rest => do
          let (k, r1) ← parseStringBody [] rest
          match skipWs r1 with
          | ':' :: r2 => do
              let (v, r3) ← parseVal fuel r2
              match skipWs r3 with
              | ',' :: r4 =>
                  let (fs, r5) ← parseMembers fuel r4
                  pure ((k, v) :: fs, r5)
              | '\x7d' :: r4 => pure ([(k, v)], r4)
              | _ => none
          | _ => none
      | _ => none

end

/-- Embedding of the host `JSON.parse` on a string: `none` models the
`SyntaxError` thrown on input that is not (modelled) JSON. -/
def jsonParse (s : String) : Option JsVal :=
  let cs := s.toList
  match parseVal (2 * cs.length + 2) cs with
  | some (v, rest) => if skipWs rest = [] then some v else none
  | none => none

/-! ### The transport (`src/lib/request-tool.ts`) -/

/-- The host `fetch` response, as far as the transport observes it: the
status code, the status text (a stand-in for every response property other
than `status`), and the result of `response.text()` — `none` models a body
stream whose read rejects (the `.catch(_ => null)` on line 42). -/
structure Response where
  status : Nat
  statusText : String
  bodyText : Option String
deriving Repr

/-- The request handed to `fetch`: method, full URL (`baseUrl + path`),
headers and the (already serialized) body. -/
structure SentRequest where
  method : String
  url : String
  headers : List (String × String)
  body : Option String
deriving Repr

/-- The `Result<T>` envelope of `request-tool.ts` (also the extra fields
`Object.assign`-ed onto a thrown classified error). -/
structure QueryResult where
  response : Response
  text : Option String
  data : JsVal
deriving Repr

/-- The two status-band error classes thrown by `#query`
(`'Server Error Result'` / `'Client Error Result'`). -/
inductive HttpErrorKind where
  | serverError
  | clientError
deriving Repr, DecidableEq

/-- Exceptions that can be thrown before `fetch` runs: `JSON.stringify` on a
cyclic body (`TypeError`), the services' `'Required fields missing from
Action Object'` error, and the `ReferenceError` of an undefined identifier. -/
inductive LocalErrorKind where
  | serializationError
  | localValidationError
  | referenceError
deriving Repr, DecidableEq

/-- How a transport call settles: the resolved `Result`, a rejection with a
status-classified error carrying `\x7bresponse, text, data\x7d`, or an
exception thrown before any network I/O. -/
inductive QueryOutcome where
  | resolved (r : QueryResult)
  | classifiedError (kind : HttpErrorKind) (r : QueryResult)
  | thrownBeforeFetch (kind : LocalErrorKind)
deriving Repr

/-- ASCII lower-casing of one character, as JS `toLowerCase` acts on the
method names in play. -/
def charToLower (c : Char) : Char :=
  if 'A' ≤ c ∧ c ≤ 'Z' then Char.ofNat (c.toNat + 32) else c

/-- Embedding of `method.toLowerCase()` (ASCII range). -/
def strToLower (s : String) : String :=
  String.mk (s.toList.map charToLower)

/-- Source `RequestTool.#getHeaders` (request-tool.ts lines 17–29): always
`Authorization` and `Accept`; `Content-Type: application/json` added exactly
when the lowercased method is `put`, `post` or `patch`. -/
def getHeaders (token : String) (method : String) : List (String × String) :=
  let headers := [("Authorization", "Bearer " ++ token),
                  ("Accept", "application/json, text/plain, */*")]
  if strToLower method == "put" || strToLower method == "post" ||
      strToLower method == "patch" then
    headers ++ [("Content-Type", "application/json")]
  else
    headers

/-- The TS `string | null` value of `text` viewed as a JS value, for the
truthiness test `if (text)`. -/
def textToJs : Option String → JsVal
  | none => .jsNull
  | some s => .jsStr s

/-- Lines 42–67 of `request-tool.ts`, from `response.text()` on: decode,
then classify by status.  NOTE the faithful rendering of line 46, which
reads `data = JSON.parse(data)` — it parses the `null`-initialized variable
`data` (coerced to the string `"null"`), not `text`. -/
def handleResponse (response : Response) : QueryOutcome :=
  let text : Option String := response.bodyText
  let data : JsVal := .jsNull
  let data : JsVal :=
    if jsTruthy (textToJs text) then
      match jsonParse (jsToString data) with
      | some v => v
      | none => data
    else data
  if response.status > 500 then
    .classifiedError .serverError ⟨response, text, data⟩
  else if response.status > 400 then
    .classifiedError .clientError ⟨response, text, data⟩
  else
    .resolved ⟨response, text, data⟩

/-- Source `RequestTool.#query` (request-tool.ts lines 31–68).  The body parameter
is a `JsVal`; `jsUndefined` models an absent argument (the guard
`body !== undefined` on line 36).  The first component of the result is the
request that reached `fetch` (`none` = no network I/O). -/
def query (token baseUrl method path : String) (body : JsVal)
    (net : SentRequest → Response) : Option SentRequest × QueryOutcome :=
  let headers := getHeaders token method
  match body with
  | .jsUndefined =>
      let sent : SentRequest := ⟨method, baseUrl ++ path, headers, none⟩
      (some sent, handleResponse (net sent))
  | b =>
      match jsonStringify b with
      | none => (none, .thrownBeforeFetch .serializationError)
      | some s =>
          let sent : SentRequest := ⟨method, baseUrl ++ path, headers, some s⟩
          (some sent, handleResponse (net sent))

namespace RequestTool

/-- Source `request.head(path)` (line 70). -/
def head (token baseUrl path : String) (net : SentRequest → Response) :
    Option SentRequest × QueryOutcome :=
  query token baseUrl "HEAD" path .jsUndefined net

/-- Source `request.get(path)` (line 72). -/
def get (token baseUrl path : String) (net : SentRequest → Response) :
    Option SentRequest × QueryOutcome :=
  query token baseUrl "GET" path .jsUndefined net

/-- Source `request.put(path, value)` (line 74). -/
def put (token baseUrl path : String) (value : JsVal) (net : SentRequest → Response) :
    Option SentRequest × QueryOutcome :=
  query token baseUrl "PUT" path value net

/-- Source `request.post(path, value)` (line 76). -/
def post (token baseUrl path : String) (value : JsVal) (net : SentRequest → Response) :
    Option SentRequest × QueryOutcome :=
  query token baseUrl "POST" path value net

/-- Source `request.patch(path, value)` (line 78). -/
def patch (token baseUrl path : String) (value : JsVal) (net : SentRequest → Response) :
    Option SentRequest × QueryOutcome :=
  query token baseUrl "PATCH" path value net

/-- Source `request.delete(path, value?)` (lines 80–82); `value = jsUndefined`
models the omitted optional argument. -/
def delete (token baseUrl path : String) (value : JsVal) (net : SentRequest → Response) :
    Option SentRequest × QueryOutcome :=
  query token baseUrl "DELETE" path value net

end RequestTool

/-- The coarse classification band of an outcome. -/
inductive Band where
  | success
  | clientErr
  | serverErr
  | noHttp
deriving Repr, DecidableEq

/-- Band of a settled call. -/
def outcomeBand : QueryOutcome → Band
  | .resolved _ => .success
  | .classifiedError .clientError _ => .clientErr
  | .classifiedError .serverError _ => .serverErr
  | .thrownBeforeFetch _ => .noHttp

/-! ### Block-storage action service
(`src/lib/services/block-storage-actions-service.ts`) -/

/-- The fields of the `ActionRequest` interface that
`block-storage-actions-service.ts` reads.  Each field is a JS value;
`jsUndefined` is an absent field. -/
structure ActionRequest where
  type : JsVal
  droplet_id : JsVal
  volume_name : JsVal
  size_gigabytes : JsVal
  region : JsVal
deriving Repr

/-- The JS object literal a caller passes as the `actionRequest` argument
(fields whose value is `undefined` are dropped by `JSON.stringify`, see
`stringifyFields`). -/
def actionRequestToJs (a : ActionRequest) : JsVal :=
  .jsObj [("type", a.type), ("droplet_id", a.droplet_id),
          ("volume_name", a.volume_name), ("size_gigabytes", a.size_gigabytes),
          ("region", a.region)]

namespace BlockStorageActionService

/-- Source `attachActionIsValid` (lines 201–206): JS falsiness test on `type` and
`droplet_id`. -/
def attachActionIsValid (action : ActionRequest) : Bool :=
  if !jsTruthy action.type || !jsTruthy action.droplet_id then false else true

/-- Source `attachActionByNameIsValid` (lines 208–213): `attachActionIsValid` plus
a falsiness test on `volume_name`. -/
def attachActionByNameIsValid (action : ActionRequest) : Bool :=
  if !attachActionIsValid action || !jsTruthy action.volume_name then false else true

/-- Source `resizeActionIsValid` (lines 215–220): JS falsiness test on `type` and
`size_gigabytes`. -/
def resizeActionIsValid (action : ActionRequest) : Bool :=
  if !jsTruthy action.type || !jsTruthy action.size_gigabytes then false else true

/-- Source `attachVolumeToDroplet` (lines 25–35): validate locally, then POST to
`/volumes/\x7bvolumeId\x7d/actions`.  The final `.then(response =>
response.data.action)` projection is not modelled — the claims under proof
stop at the transport outcome. -/
def attachVolumeToDroplet (token baseUrl volumeId : String) (actionRequest : ActionRequest)
    (net : SentRequest → Response) : Option SentRequest × QueryOutcome :=
  if !attachActionIsValid actionRequest then
    (none, .thrownBeforeFetch .localValidationError)
  else
    RequestTool.post token baseUrl ("/volumes/" ++ volumeId ++ "/actions")
      (actionRequestToJs actionRequest) net

/-- Source `attachVolumeToDropletByName` (lines 55–64). -/
def attachVolumeToDropletByName (token baseUrl : String) (actionRequest : ActionRequest)
    (net : SentRequest → Response) : Option SentRequest × QueryOutcome :=
  if !attachActionByNameIsValid actionRequest then
    (none, .thrownBeforeFetch .localValidationError)
  else
    RequestTool.post token baseUrl "/volumes/actions" (actionRequestToJs actionRequest) net

/-- Source `detachVolumeFromDroplet` (lines 83–93); it reuses `attachActionIsValid`. -/
def detachVolumeFromDroplet (token baseUrl volumeId : String) (actionRequest : ActionRequest)
    (net : SentRequest → Response) : Option SentRequest × QueryOutcome :=
  if !attachActionIsValid actionRequest then
    (none, .thrownBeforeFetch .localValidationError)
  else
    RequestTool.post token baseUrl ("/volumes/" ++ volumeId ++ "/actions")
      (actionRequestToJs actionRequest) net

/-- Source `detachVolumeFromDropletByName` (lines 113–122). -/
def detachVolumeFromDropletByName (token baseUrl : String) (actionRequest : ActionRequest)
    (net : SentRequest → Response) : Option SentRequest × QueryOutcome :=
  if !attachActionByNameIsValid actionRequest then
    (none, .thrownBeforeFetch .localValidationError)
  else
    RequestTool.post token baseUrl "/volumes/actions" (actionRequestToJs actionRequest) net

/-- Source `resizeVolume` (lines 141–151). -/
def resizeVolume (token baseUrl volumeId : String) (actionRequest : ActionRequest)
    (net : SentRequest → Response) : Option SentRequest × QueryOutcome :=
  if !resizeActionIsValid actionRequest then
    (none, .thrownBeforeFetch .localValidationError)
  else
    RequestTool.post token baseUrl ("/volumes/" ++ volumeId ++ "/actions")
      (actionRequestToJs actionRequest) net

/-- The URL built by `getAllVolumeActions` (lines 168–175):
`page = page ?? 1` (nullish only) and `perPage = perPage || 25` (falsiness:
`0` also falls back).  Arguments are `Option Int`: `none` = omitted. -/
def getAllVolumeActionsUrl (volumeId : String) (perPage page : Option Int) : String :=
  let page : Int := match page with | none => 1 | some p => p
  let perPage : Int := match perPage with | none => 25 | some pp => if pp == 0 then 25 else pp
  "/volumes/" ++ volumeId ++ "/actions?page=" ++ toString page ++ "&per_page=" ++ toString perPage

/-- Source `getAllVolumeActions` (lines 168–177): GET on the built URL.  The
`.then(response => response.data.actions)` projection is not modelled. -/
def getAllVolumeActions (token baseUrl volumeId : String) (perPage page : Option Int)
    (net : SentRequest → Response) : Option SentRequest × QueryOutcome :=
  RequestTool.get token baseUrl (getAllVolumeActionsUrl volumeId perPage page) net

end BlockStorageActionService

/-! ### Account-wide action service (`ActionService`, in the
`floating-ip-actions-service.ts` compilation unit, lines 478–517) -/

namespace ActionService

/-- The URL built by `getAllActions` (lines 495–499): here BOTH defaults use
`||`, so a supplied `0` falls back for `page` as well as for `per_page`. -/
def getAllActionsUrl (perPage page : Option Int) : String :=
  let page : Int := match page with | none => 1 | some p => if p == 0 then 1 else p
  let perPage : Int := match perPage with | none => 25 | some pp => if pp == 0 then 25 else pp
  "/actions?page=" ++ toString page ++ "&per_page=" ++ toString perPage

/-- Source `getAllActions` (lines 495–500): GET on the built URL. -/
def getAllActions (token baseUrl : String) (perPage page : Option Int)
    (net : SentRequest → Response) : Option SentRequest × QueryOutcome :=
  RequestTool.get token baseUrl (getAllActionsUrl perPage page) net

end ActionService

/-! ### Floating-IP action service (`floating-ip-actions-service.ts`) -/

namespace FloatingIPActionService

/-- Source `unassignFloatingIP` (lines 45–52).  The source builds a local
`data = \x7b type: 'unassign' \x7d` but then passes the identifier
`redataquest` — which is defined nowhere — to `request.post`; evaluating
that argument throws a `ReferenceError` before `request.post` runs, so no
request is ever issued.  The embedding records exactly that control flow. -/
def unassignFloatingIP (_floatingIPAddress : String) : Option SentRequest × QueryOutcome :=
  let _data : JsVal := .jsObj [("type", .jsStr "unassign")]
  (none, .thrownBeforeFetch .referenceError)

end FloatingIPActionService

/-! ## Theorems

Sanity checks on the embedded JSON codec, then one theorem per claim. -/

example : jsonParse "null" = some .jsNull := rfl
example : jsonParse "\x7b\"a\":1\x7d" = some (.jsObj [("a", .jsNum 1)]) := rfl
example : jsonParse "\x7b\"id\":\"not_found\"\x7d" = some (.jsObj [("id", .jsStr "not_found")]) := rfl
example : jsonParse "not json" = none := rfl
example : jsonStringify (.jsObj [("a", .jsNum 1)]) = some "\x7b\"a\":1\x7d" := rfl
example : jsonStringify (.jsArr [.jsNum 1, .jsCyclic]) = none := rfl

/-- Helper: a call with an absent body issues the request unchanged and
settles as `handleResponse` of what the network returned. -/
theorem query_undef (token baseUrl method path : String) (net : SentRequest → Response) :
    query token baseUrl method path .jsUndefined net =
      (some ⟨method, baseUrl ++ path, getHeaders token method, none⟩,
       handleResponse (net ⟨method, baseUrl ++ path, getHeaders token method, none⟩)) :=
  rfl

/-- Helper: a call with a defined, serializable body issues the request with
the serialized body attached. -/
theorem query_body_some {b : JsVal} (hb : b ≠ .jsUndefined) {s : String}
    (hs : jsonStringify b = some s) (token baseUrl method path : String)
    (net : SentRequest → Response) :
    query token baseUrl method path b net =
      (some ⟨method, baseUrl ++ path, getHeaders token method, some s⟩,
       handleResponse (net ⟨method, baseUrl ++ path, getHeaders token method, some s⟩)) := by
  cases b
  case jsUndefined => exact absurd rfl hb
  all_goals simp only [query, hs]

/-- Helper: a call whose defined body does not serialize throws before any
network I/O. -/
theorem query_body_none {b : JsVal} (hb : b ≠ .jsUndefined)
    (hn : jsonStringify b = none) (token baseUrl method path : String)
    (net : SentRequest → Response) :
    query token baseUrl method path b net = (none, .thrownBeforeFetch .serializationError) := by
  cases b
  case jsUndefined => exact absurd rfl hb
  all_goals simp only [query, hn]

/-- Helper: whenever `query` put a request on the wire, that request carried
the method, the URL `baseUrl ++ path` and the headers of `getHeaders`, and
the outcome is `handleResponse` of the network's response to it. -/
theorem query_some_inv {token baseUrl method path : String} {body : JsVal}
    {net : SentRequest → Response} {sent : SentRequest} {out : QueryOutcome}
    (h : query token baseUrl method path body net = (some sent, out)) :
    sent.method = method ∧ sent.url = baseUrl ++ path ∧
    sent.headers = getHeaders token method ∧ out = handleResponse (net sent) := by
  cases body
  case jsUndefined =>
    rw [query_undef] at h
    injection h with h1 h2
    injection h1 with h1
    subst h1 h2
    exact ⟨rfl, rfl, rfl, rfl⟩
  all_goals
    simp only [query] at h
    split at h
    · injection h with h1 _
      exact Option.noConfusion h1
    · injection h with h1 h2
      injection h1 with h1
      subst h1 h2
      exact ⟨rfl, rfl, rfl, rfl⟩

/-- C1: the claim says a `≤ 400` response whose body text is valid JSON
resolves with `data` equal to the parsed text.  The code instead evaluates
`JSON.parse(data)` on the `null`-initialized variable `data`
(request-tool.ts line 46), so `data` is always `null`: on a 200 response
with body `\x7b"a":1\x7d` — valid JSON parsing to a non-null object — the
call resolves with `text` holding the raw body but `data = null`, not the
parsed value.  This refutes the valid-JSON clause of the claim on a concrete
input and exhibits the defect (the spec's §9 flags the same line). -/
theorem decode_bug_valid_json_yields_null_data :
    jsonParse "\x7b\"a\":1\x7d" = some (.jsObj [("a", .jsNum 1)]) ∧
    (RequestTool.get "tok" "https://api.example.test/v2" "/droplets"
        (fun _ => ⟨200, "OK", some "\x7b\"a\":1\x7d"⟩)).2 =
      .resolved ⟨⟨200, "OK", some "\x7b\"a\":1\x7d"⟩, some "\x7b\"a\":1\x7d", .jsNull⟩ ∧
    JsVal.jsNull ≠ .jsObj [("a", .jsNum 1)] :=
  ⟨rfl, rfl, fun h => nomatch h⟩

/-- C3: the claim says a rejection for a 404 whose body is
`\x7b"id":"not_found"\x7d` carries the decoded body (`data.id ===
'not_found'`).  The rejection does carry the response and the raw text, but
because line 46 parses the wrong variable, `data` in the thrown
`ClientError` is `null`, not the decoded `\x7bid: 'not_found'\x7d`. -/
theorem client_error_404_data_is_null :
    jsonParse "\x7b\"id\":\"not_found\"\x7d" = some (.jsObj [("id", .jsStr "not_found")]) ∧
    (RequestTool.get "tok" "https://api.example.test/v2" "/droplets/999"
        (fun _ => ⟨404, "Not Found", some "\x7b\"id\":\"not_found\"\x7d"⟩)).2 =
      .classifiedError .clientError
        ⟨⟨404, "Not Found", some "\x7b\"id\":\"not_found\"\x7d"⟩,
         some "\x7b\"id\":\"not_found\"\x7d", .jsNull⟩ ∧
    JsVal.jsNull ≠ .jsObj [("id", .jsStr "not_found")] :=
  ⟨rfl, rfl, fun h => nomatch h⟩

/-- C8: for every input, `unassignFloatingIP` throws a `ReferenceError`
(the body references the undefined identifier `redataquest` instead of its
locally built `data`) before any network request is issued; the operation
can never succeed. -/
theorem unassign_always_reference_error (floatingIPAddress : String) :
    FloatingIPActionService.unassignFloatingIP floatingIPAddress =
      (none, .thrownBeforeFetch .referenceError) :=
  rfl

/-- C2: classification depends only on the status code — status `> 500`
rejects with kind=ServerError; `400 < status ≤ 500` rejects with
kind=ClientError and the rejection payload's `response.status` equal to the
original status; two responses with the same status always land in the same
band, whatever their other properties; and every outcome of a transport call
that reached the network is exactly this status classification of the
response. -/
theorem classification_by_status_only :
    (∀ r : Response, 500 < r.status →
        ∃ res, handleResponse r = .classifiedError .serverError res ∧ res.response = r) ∧
    (∀ r : Response, 400 < r.status → r.status ≤ 500 →
        ∃ res, handleResponse r = .classifiedError .clientError res ∧
          res.response.status = r.status) ∧
    (∀ r₁ r₂ : Response, r₁.status = r₂.status →
        outcomeBand (handleResponse r₁) = outcomeBand (handleResponse r₂)) ∧
    (∀ (token baseUrl method path : String) (body : JsVal) (net : SentRequest → Response)
        (sent : SentRequest) (out : QueryOutcome),
        query token baseUrl method path body net = (some sent, out) →
        out = handleResponse (net sent)) := by
  refine ⟨?_, ?_, ?_, ?_⟩
  · intro r h
    simp only [handleResponse]
    rw [if_pos h]
    exact ⟨_, rfl, rfl⟩
  · intro r h4 h5
    simp only [handleResponse]
    rw [if_neg (by omega), if_pos h4]
    exact ⟨_, rfl, rfl⟩
  · intro r₁ r₂ hs
    simp only [handleResponse, ← hs]
    by_cases h5 : r₁.status > 500
    · rw [if_pos h5, if_pos h5]; rfl
    · rw [if_neg h5, if_neg h5]
      by_cases h4 : r₁.status > 400
      · rw [if_pos h4, if_pos h4]; rfl
      · rw [if_neg h4, if_neg h4]; rfl
  · intro token baseUrl method path body net sent out h
    exact (query_some_inv h).2.2.2

/-- Witness for C2 at concrete inputs: a 503 response lands in the
ServerError band and a 404 response in the ClientError band with its status
preserved on the rejection payload. -/
theorem classification_by_status_only_witness :
    (∃ res, handleResponse ⟨503, "Service Unavailable", some "oops"⟩ =
        .classifiedError .serverError res ∧
        res.response = ⟨503, "Service Unavailable", some "oops"⟩) ∧
    (∃ res, handleResponse ⟨404, "Not Found", none⟩ =
        .classifiedError .clientError res ∧ res.response.status = 404) :=
  ⟨classification_by_status_only.1 _ (by decide),
   classification_by_status_only.2.1 _ (by decide) (by decide)⟩

/-- C4: every transport request carries `Accept: application/json,
text/plain, */*` and `Authorization: Bearer <token>`, and carries
`Content-Type: application/json` exactly when the method is PUT, POST or
PATCH — never for GET, HEAD or DELETE. -/
theorem headers_per_method :
    ∀ token : String,
      ∀ method ∈ (["HEAD", "GET", "PUT", "POST", "PATCH", "DELETE"] : List String),
        ("Accept", "application/json, text/plain, */*") ∈ getHeaders token method ∧
        ("Authorization", "Bearer " ++ token) ∈ getHeaders token method ∧
        (("Content-Type", "application/json") ∈ getHeaders token method ↔
          method ∈ (["PUT", "POST", "PATCH"] : List String)) := by
  intro token method hm
  fin_cases hm <;>
    (refine ⟨?_, ?_, ?_⟩ <;>
      · simp only [getHeaders]
        first
        | rw [if_pos (by decide)]
        | rw [if_neg (by decide)]
        simp)

/-- Witness for C4 at a concrete call: a POST carries all three headers. -/
theorem headers_per_method_witness :
    ("Accept", "application/json, text/plain, */*") ∈ getHeaders "tok" "POST" ∧
    ("Authorization", "Bearer " ++ "tok") ∈ getHeaders "tok" "POST" ∧
    (("Content-Type", "application/json") ∈ getHeaders "tok" "POST" ↔
      "POST" ∈ (["PUT", "POST", "PATCH"] : List String)) :=
  headers_per_method "tok" "POST" (by decide)

/-- C5: a defined body is JSON-serialized before the network request is
issued — the serialized string travels on the issued request — and a body on
which `JSON.stringify` throws (a cyclic value) makes the call fail with the
serialization error while the wire component stays `none`: no network I/O
happened. -/
theorem body_serialized_before_fetch :
    (∀ (token baseUrl method path : String) (b : JsVal) (net : SentRequest → Response),
        b ≠ .jsUndefined → jsonStringify b = none →
        query token baseUrl method path b net = (none, .thrownBeforeFetch .serializationError)) ∧
    (∀ (token baseUrl method path : String) (b : JsVal) (s : String)
        (net : SentRequest → Response), b ≠ .jsUndefined → jsonStringify b = some s →
        ∃ sent out, query token baseUrl method path b net = (some sent, out) ∧
          sent.body = some s) := by
  constructor
  · intro token baseUrl method path b net hb hn
    exact query_body_none hb hn token baseUrl method path net
  · intro token baseUrl method path b s net hb hs
    exact ⟨_, _, query_body_some hb hs token baseUrl method path net, rfl⟩

/-- Witness for C5 at concrete bodies: a cyclic body fails before any
network I/O; a plain object body is serialized onto the wire. -/
theorem body_serialized_before_fetch_witness :
    query "tok" "https://api.example.test/v2" "POST" "/widgets" .jsCyclic
        (fun _ => ⟨200, "OK", none⟩) = (none, .thrownBeforeFetch .serializationError) ∧
    ∃ sent out,
      query "tok" "https://api.example.test/v2" "POST" "/widgets" (.jsObj [("a", .jsNum 1)])
          (fun _ => ⟨200, "OK", none⟩) = (some sent, out) ∧
      sent.body = some "\x7b\"a\":1\x7d" :=
  ⟨body_serialized_before_fetch.1 "tok" "https://api.example.test/v2" "POST" "/widgets"
      .jsCyclic (fun _ => ⟨200, "OK", none⟩) (fun h => nomatch h) rfl,
   body_serialized_before_fetch.2 "tok" "https://api.example.test/v2" "POST" "/widgets"
      (.jsObj [("a", .jsNum 1)]) "\x7b\"a\":1\x7d" (fun _ => ⟨200, "OK", none⟩)
      (fun h => nomatch h) rfl⟩

/-- C9: a `delete` with a defined body serializes and transmits the body,
yet adds no `Content-Type: application/json` header; more generally, the
headers a call sends are `getHeaders token method` — a function of the
method alone, never of whether a body is present. -/
theorem delete_body_no_content_type :
    (∀ (token baseUrl path : String) (v : JsVal) (s : String) (net : SentRequest → Response),
        v ≠ .jsUndefined → jsonStringify v = some s →
        ∃ sent out, RequestTool.delete token baseUrl path v net = (some sent, out) ∧
          sent.body = some s ∧
          sent.headers = getHeaders token "DELETE" ∧
          ("Content-Type", "application/json") ∉ sent.headers) ∧
    (∀ (token baseUrl method path : String) (b₁ b₂ : JsVal) (net : SentRequest → Response)
        (sent₁ sent₂ : SentRequest) (out₁ out₂ : QueryOutcome),
        query token baseUrl method path b₁ net = (some sent₁, out₁) →
        query token baseUrl method path b₂ net = (some sent₂, out₂) →
        sent₁.headers = sent₂.headers ∧ sent₁.headers = getHeaders token method) := by
  constructor
  · intro token baseUrl path v s net hv hs
    refine ⟨_, _, query_body_some hv hs token baseUrl "DELETE" path net, rfl, rfl, ?_⟩
    simp only [getHeaders]
    rw [if_neg (by decide)]
    simp
  · intro token baseUrl method path b₁ b₂ net sent₁ sent₂ out₁ out₂ h₁ h₂
    have g₁ := (query_some_inv h₁).2.2.1
    have g₂ := (query_some_inv h₂).2.2.1
    exact ⟨g₁.trans g₂.symm, g₁⟩

/-- Witness for C9 at a concrete call: a DELETE carrying the body
`\x7b"a":1\x7d` transmits it without a `Content-Type` header. -/
theorem delete_body_no_content_type_witness :
    (∃ sent out,
        RequestTool.delete "tok" "https://api.example.test/v2" "/things/1"
            (.jsObj [("a", .jsNum 1)]) (fun _ => ⟨204, "No Content", none⟩) =
          (some sent, out) ∧
        sent.body = some "\x7b\"a\":1\x7d" ∧
        sent.headers = getHeaders "tok" "DELETE" ∧
        ("Content-Type", "application/json") ∉ sent.headers) ∧
    (getHeaders "tok" "DELETE" = getHeaders "tok" "DELETE" ∧
      getHeaders "tok" "DELETE" = getHeaders "tok" "DELETE") :=
  ⟨delete_body_no_content_type.1 "tok" "https://api.example.test/v2" "/things/1"
      (.jsObj [("a", .jsNum 1)]) "\x7b\"a\":1\x7d" (fun _ => ⟨204, "No Content", none⟩)
      (fun h => nomatch h) rfl,
   by
    have h := delete_body_no_content_type.2 "tok" "https://api.example.test/v2" "DELETE"
      "/things/1" .jsNull .jsUndefined (fun _ => ⟨204, "No Content", none⟩)
      ⟨"DELETE", "https://api.example.test/v2/things/1", getHeaders "tok" "DELETE", some "null"⟩
      ⟨"DELETE", "https://api.example.test/v2/things/1", getHeaders "tok" "DELETE", none⟩
      _ _ rfl rfl
    exact h⟩

/-- Helper: `attachActionIsValid` is exactly the truthiness conjunction of
`type` and `droplet_id`. -/
theorem attachActionIsValid_eq (a : ActionRequest) :
    BlockStorageActionService.attachActionIsValid a =
      (jsTruthy a.type && jsTruthy a.droplet_id) := by
  unfold BlockStorageActionService.attachActionIsValid
  cases jsTruthy a.type <;> cases jsTruthy a.droplet_id <;> rfl

/-- Helper: `attachActionByNameIsValid` is exactly the truthiness
conjunction of `type`, `droplet_id` and `volume_name`. -/
theorem attachActionByNameIsValid_eq (a : ActionRequest) :
    BlockStorageActionService.attachActionByNameIsValid a =
      (jsTruthy a.type && jsTruthy a.droplet_id && jsTruthy a.volume_name) := by
  unfold BlockStorageActionService.attachActionByNameIsValid
  rw [attachActionIsValid_eq]
  cases jsTruthy a.type <;> cases jsTruthy a.droplet_id <;> cases jsTruthy a.volume_name <;> rfl

/-- Helper: `resizeActionIsValid` is exactly the truthiness conjunction of
`type` and `size_gigabytes`. -/
theorem resizeActionIsValid_eq (a : ActionRequest) :
    BlockStorageActionService.resizeActionIsValid a =
      (jsTruthy a.type && jsTruthy a.size_gigabytes) := by
  unfold BlockStorageActionService.resizeActionIsValid
  cases jsTruthy a.type <;> cases jsTruthy a.size_gigabytes <;> rfl

/-- C6 counterexample: in the action request `\x7btype: 'attach',
droplet_id: 0, region: 'nyc1'\x7d` no required field is absent — `type` and
`droplet_id` are both present — so the claim's "otherwise the POST is
issued" applies; yet `attachVolumeToDroplet` throws the local validation
error and makes no network call, because the validator tests falsiness, not
presence. -/
theorem attach_present_falsy_field_no_post :
    (ActionRequest.mk (.jsStr "attach") (.jsNum 0) .jsUndefined .jsUndefined
        (.jsStr "nyc1")).type ≠ .jsUndefined ∧
    (ActionRequest.mk (.jsStr "attach") (.jsNum 0) .jsUndefined .jsUndefined
        (.jsStr "nyc1")).droplet_id ≠ .jsUndefined ∧
    BlockStorageActionService.attachVolumeToDroplet "tok" "https://api.example.test/v2" "vol1"
        (ActionRequest.mk (.jsStr "attach") (.jsNum 0) .jsUndefined .jsUndefined (.jsStr "nyc1"))
        (fun _ => ⟨200, "OK", none⟩) =
      (none, .thrownBeforeFetch .localValidationError) :=
  ⟨(fun h => nomatch h), (fun h => nomatch h), rfl⟩

/-- C6 (amended): the required-field check is a truthiness check — if a
required field is absent OR otherwise falsy (attach/detach: `type` and
`droplet_id`; the by-name variants additionally `volume_name`; resize:
`type` and `size_gigabytes`), the method throws the local validation error
synchronously and no network call is made; when every required field is
truthy the request is handed to the transport POST on the documented path,
and goes on the wire whenever the body serializes. -/
theorem validation_gates_network :
    (∀ (token baseUrl vid : String) (a : ActionRequest) (net : SentRequest → Response),
        (jsTruthy a.type && jsTruthy a.droplet_id) = false →
        BlockStorageActionService.attachVolumeToDroplet token baseUrl vid a net =
            (none, .thrownBeforeFetch .localValidationError) ∧
        BlockStorageActionService.detachVolumeFromDroplet token baseUrl vid a net =
            (none, .thrownBeforeFetch .localValidationError)) ∧
    (∀ (token baseUrl : String) (a : ActionRequest) (net : SentRequest → Response),
        (jsTruthy a.type && jsTruthy a.droplet_id && jsTruthy a.volume_name) = false →
        BlockStorageActionService.attachVolumeToDropletByName token baseUrl a net =
            (none, .thrownBeforeFetch .localValidationError) ∧
        BlockStorageActionService.detachVolumeFromDropletByName token baseUrl a net =
            (none, .thrownBeforeFetch .localValidationError)) ∧
    (∀ (token baseUrl vid : String) (a : ActionRequest) (net : SentRequest → Response),
        (jsTruthy a.type && jsTruthy a.size_gigabytes) = false →
        BlockStorageActionService.resizeVolume token baseUrl vid a net =
            (none, .thrownBeforeFetch .localValidationError)) ∧
    (∀ (token baseUrl vid : String) (a : ActionRequest) (net : SentRequest → Response),
        (jsTruthy a.type && jsTruthy a.droplet_id) = true →
        BlockStorageActionService.attachVolumeToDroplet token baseUrl vid a net =
            RequestTool.post token baseUrl ("/volumes/" ++ vid ++ "/actions")
              (actionRequestToJs a) net ∧
        BlockStorageActionService.detachVolumeFromDroplet token baseUrl vid a net =
            RequestTool.post token baseUrl ("/volumes/" ++ vid ++ "/actions")
              (actionRequestToJs a) net) ∧
    (∀ (token baseUrl : String) (a : ActionRequest) (net : SentRequest → Response),
        (jsTruthy a.type && jsTruthy a.droplet_id && jsTruthy a.volume_name) = true →
        BlockStorageActionService.attachVolumeToDropletByName token baseUrl a net =
            RequestTool.post token baseUrl "/volumes/actions" (actionRequestToJs a) net ∧
        BlockStorageActionService.detachVolumeFromDropletByName token baseUrl a net =
            RequestTool.post token baseUrl "/volumes/actions" (actionRequestToJs a) net) ∧
    (∀ (token baseUrl vid : String) (a : ActionRequest) (net : SentRequest → Response),
        (jsTruthy a.type && jsTruthy a.size_gigabytes) = true →
        BlockStorageActionService.resizeVolume token baseUrl vid a net =
            RequestTool.post token baseUrl ("/volumes/" ++ vid ++ "/actions")
              (actionRequestToJs a) net) ∧
    (∀ (token baseUrl vid : String) (a : ActionRequest) (s : String)
        (net : SentRequest → Response),
        (jsTruthy a.type && jsTruthy a.droplet_id) = true →
        jsonStringify (actionRequestToJs a) = some s →
        ∃ sent out,
          BlockStorageActionService.attachVolumeToDroplet token baseUrl vid a net =
            (some sent, out) ∧
          sent.method = "POST" ∧ sent.url = baseUrl ++ ("/volumes/" ++ vid ++ "/actions") ∧
          sent.body = some s) := by
  refine ⟨?_, ?_, ?_, ?_, ?_, ?_, ?_⟩
  · intro token baseUrl vid a net h
    constructor <;>
      simp [BlockStorageActionService.attachVolumeToDroplet,
        BlockStorageActionService.detachVolumeFromDroplet, attachActionIsValid_eq, h]
  · intro token baseUrl a net h
    constructor <;>
      simp [BlockStorageActionService.attachVolumeToDropletByName,
        BlockStorageActionService.detachVolumeFromDropletByName,
        attachActionByNameIsValid_eq, h]
  · intro token baseUrl vid a net h
    simp [BlockStorageActionService.resizeVolume, resizeActionIsValid_eq, h]
  · intro token baseUrl vid a net h
    constructor <;>
      simp [BlockStorageActionService.attachVolumeToDroplet,
        BlockStorageActionService.detachVolumeFromDroplet, attachActionIsValid_eq, h]
  · intro token baseUrl a net h
    constructor <;>
      simp [BlockStorageActionService.attachVolumeToDropletByName,
        BlockStorageActionService.detachVolumeFromDropletByName,
        attachActionByNameIsValid_eq, h]
  · intro token baseUrl vid a net h
    simp [BlockStorageActionService.resizeVolume, resizeActionIsValid_eq, h]
  · intro token baseUrl vid a s net h hs
    have he : BlockStorageActionService.attachVolumeToDroplet token baseUrl vid a net =
        RequestTool.post token baseUrl ("/volumes/" ++ vid ++ "/actions")
          (actionRequestToJs a) net := by
      simp [BlockStorageActionService.attachVolumeToDroplet, attachActionIsValid_eq, h]
    rw [he, RequestTool.post,
      query_body_some (b := actionRequestToJs a) (fun hc => nomatch hc) hs]
    exact ⟨_, _, rfl, rfl, rfl, rfl⟩

/-- Witness for C6 (amended) at concrete requests: the empty request is
rejected locally with no network call; a fully truthy attach request is
posted to `/volumes/vol1/actions` with its serialized body. -/
theorem validation_gates_network_witness :
    (BlockStorageActionService.attachVolumeToDroplet "tok" "https://api.example.test/v2" "vol1"
        ⟨.jsUndefined, .jsUndefined, .jsUndefined, .jsUndefined, .jsUndefined⟩
        (fun _ => ⟨200, "OK", none⟩) = (none, .thrownBeforeFetch .localValidationError) ∧
      BlockStorageActionService.detachVolumeFromDroplet "tok" "https://api.example.test/v2" "vol1"
        ⟨.jsUndefined, .jsUndefined, .jsUndefined, .jsUndefined, .jsUndefined⟩
        (fun _ => ⟨200, "OK", none⟩) = (none, .thrownBeforeFetch .localValidationError)) ∧
    (∃ sent out,
        BlockStorageActionService.attachVolumeToDroplet "tok" "https://api.example.test/v2" "vol1"
            ⟨.jsStr "attach", .jsNum 42, .jsUndefined, .jsUndefined, .jsStr "nyc1"⟩
            (fun _ => ⟨200, "OK", none⟩) = (some sent, out) ∧
        sent.method = "POST" ∧
        sent.url = "https://api.example.test/v2" ++ ("/volumes/" ++ "vol1" ++ "/actions") ∧
        sent.body = some "\x7b\"type\":\"attach\",\"droplet_id\":42,\"region\":\"nyc1\"\x7d") :=
  ⟨validation_gates_network.1 "tok" "https://api.example.test/v2" "vol1"
      ⟨.jsUndefined, .jsUndefined, .jsUndefined, .jsUndefined, .jsUndefined⟩
      (fun _ => ⟨200, "OK", none⟩) rfl,
   validation_gates_network.2.2.2.2.2.2 "tok" "https://api.example.test/v2" "vol1"
      ⟨.jsStr "attach", .jsNum 42, .jsUndefined, .jsUndefined, .jsStr "nyc1"⟩
      "\x7b\"type\":\"attach\",\"droplet_id\":42,\"region\":\"nyc1\"\x7d"
      (fun _ => ⟨200, "OK", none⟩) rfl rfl⟩

/-- C10: the validators test required fields by JS falsiness, not presence:
each validator is exactly a truthiness conjunction; `0` and `''` are falsy
though present; and a request carrying such a present-but-falsy required
field is rejected as if the field were missing, with no network call. -/
theorem validators_test_falsiness :
    (∀ a : ActionRequest, BlockStorageActionService.attachActionIsValid a =
        (jsTruthy a.type && jsTruthy a.droplet_id)) ∧
    (∀ a : ActionRequest, BlockStorageActionService.attachActionByNameIsValid a =
        (jsTruthy a.type && jsTruthy a.droplet_id && jsTruthy a.volume_name)) ∧
    (∀ a : ActionRequest, BlockStorageActionService.resizeActionIsValid a =
        (jsTruthy a.type && jsTruthy a.size_gigabytes)) ∧
    jsTruthy (.jsNum 0) = false ∧ jsTruthy (.jsStr "") = false ∧
    (∀ (token baseUrl vid : String) (a : ActionRequest) (net : SentRequest → Response),
        a.droplet_id = .jsNum 0 →
        BlockStorageActionService.attachVolumeToDroplet token baseUrl vid a net =
          (none, .thrownBeforeFetch .localValidationError)) ∧
    (∀ (token baseUrl vid : String) (a : ActionRequest) (net : SentRequest → Response),
        a.size_gigabytes = .jsNum 0 →
        BlockStorageActionService.resizeVolume token baseUrl vid a net =
          (none, .thrownBeforeFetch .localValidationError)) ∧
    (∀ (token baseUrl vid : String) (a : ActionRequest) (net : SentRequest → Response),
        a.type = .jsStr "" →
        BlockStorageActionService.attachVolumeToDroplet token baseUrl vid a net =
          (none, .thrownBeforeFetch .localValidationError)) := by
  refine ⟨attachActionIsValid_eq, attachActionByNameIsValid_eq, resizeActionIsValid_eq,
    rfl, rfl, ?_, ?_, ?_⟩
  · intro token baseUrl vid a net h
    have hf : (jsTruthy a.type && jsTruthy a.droplet_id) = false := by
      rw [h]; cases jsTruthy a.type <;> rfl
    simp [BlockStorageActionService.attachVolumeToDroplet, attachActionIsValid_eq, hf]
  · intro token baseUrl vid a net h
    have hf : (jsTruthy a.type && jsTruthy a.size_gigabytes) = false := by
      rw [h]; cases jsTruthy a.type <;> rfl
    simp [BlockStorageActionService.resizeVolume, resizeActionIsValid_eq, hf]
  · intro token baseUrl vid a net h
    have hf : (jsTruthy a.type && jsTruthy a.droplet_id) = false := by
      rw [h]; rfl
    simp [BlockStorageActionService.attachVolumeToDroplet, attachActionIsValid_eq, hf]

/-- Witness for C10 at concrete requests: `droplet_id: 0`,
`size_gigabytes: 0` and `type: ''`, each present but falsy, are rejected
with no network call. -/
theorem validators_test_falsiness_witness :
    BlockStorageActionService.attachVolumeToDroplet "tok" "https://api.example.test/v2" "vol1"
        ⟨.jsStr "attach", .jsNum 0, .jsUndefined, .jsUndefined, .jsUndefined⟩
        (fun _ => ⟨200, "OK", none⟩) = (none, .thrownBeforeFetch .localValidationError) ∧
    BlockStorageActionService.resizeVolume "tok" "https://api.example.test/v2" "vol1"
        ⟨.jsStr "resize", .jsUndefined, .jsUndefined, .jsNum 0, .jsUndefined⟩
        (fun _ => ⟨200, "OK", none⟩) = (none, .thrownBeforeFetch .localValidationError) ∧
    BlockStorageActionService.attachVolumeToDroplet "tok" "https://api.example.test/v2" "vol1"
        ⟨.jsStr "", .jsNum 7, .jsUndefined, .jsUndefined, .jsUndefined⟩
        (fun _ => ⟨200, "OK", none⟩) = (none, .thrownBeforeFetch .localValidationError) :=
  ⟨validators_test_falsiness.2.2.2.2.2.1 "tok" "https://api.example.test/v2" "vol1"
      ⟨.jsStr "attach", .jsNum 0, .jsUndefined, .jsUndefined, .jsUndefined⟩
      (fun _ => ⟨200, "OK", none⟩) rfl,
   validators_test_falsiness.2.2.2.2.2.2.1 "tok" "https://api.example.test/v2" "vol1"
      ⟨.jsStr "resize", .jsUndefined, .jsUndefined, .jsNum 0, .jsUndefined⟩
      (fun _ => ⟨200, "OK", none⟩) rfl,
   validators_test_falsiness.2.2.2.2.2.2.2 "tok" "https://api.example.test/v2" "vol1"
      ⟨.jsStr "", .jsNum 7, .jsUndefined, .jsUndefined, .jsUndefined⟩
      (fun _ => ⟨200, "OK", none⟩) rfl⟩

/-- C7 counterexample: with pagination arguments SUPPLIED as `perPage = 0,
page = 1`, the claim says the constructed path echoes `per_page=0`; both
endpoints instead produce `per_page=25`, because the source computes
`perPage || 25`, and `0` is falsy. -/
theorem pagination_zero_per_page_not_echoed :
    BlockStorageActionService.getAllVolumeActionsUrl "v1" (some 0) (some 1) =
      "/volumes/v1/actions?page=1&per_page=25" ∧
    BlockStorageActionService.getAllVolumeActionsUrl "v1" (some 0) (some 1) ≠
      "/volumes/v1/actions?page=1&per_page=0" ∧
    ActionService.getAllActionsUrl (some 0) (some 1) = "/actions?page=1&per_page=25" ∧
    ActionService.getAllActionsUrl (some 0) (some 1) ≠ "/actions?page=1&per_page=0" := by
  refine ⟨by decide, by decide, by decide, by decide⟩

/-- C7 (amended): with pagination arguments omitted both endpoints carry the
query string `page=1&per_page=25`; supplied values are echoed when nonzero.
A supplied `perPage = 0` falls back to `25` in both endpoints (`perPage ||
25`); a supplied `page = 0` falls back to `1` in `getAllActions`
(`page || 1`) but is echoed by `getAllVolumeActions` (`page ?? 1`).  Each
method performs a GET on exactly the URL it built. -/
theorem pagination_defaults_and_echo :
    (∀ v : String, BlockStorageActionService.getAllVolumeActionsUrl v none none =
        "/volumes/" ++ v ++ "/actions?page=1&per_page=25") ∧
    ActionService.getAllActionsUrl none none = "/actions?page=1&per_page=25" ∧
    (∀ (v : String) (pp p : Int), pp ≠ 0 →
        BlockStorageActionService.getAllVolumeActionsUrl v (some pp) (some p) =
          "/volumes/" ++ v ++ "/actions?page=" ++ toString p ++ "&per_page=" ++ toString pp) ∧
    (∀ pp p : Int, pp ≠ 0 → p ≠ 0 →
        ActionService.getAllActionsUrl (some pp) (some p) =
          "/actions?page=" ++ toString p ++ "&per_page=" ++ toString pp) ∧
    ActionService.getAllActionsUrl (some 5) (some 0) = "/actions?page=1&per_page=5" ∧
    BlockStorageActionService.getAllVolumeActionsUrl "v1" (some 5) (some 0) =
      "/volumes/v1/actions?page=0&per_page=5" ∧
    (∀ (token baseUrl v : String) (pp p : Option Int) (net : SentRequest → Response),
        BlockStorageActionService.getAllVolumeActions token baseUrl v pp p net =
          RequestTool.get token baseUrl
            (BlockStorageActionService.getAllVolumeActionsUrl v pp p) net) ∧
    (∀ (token baseUrl : String) (pp p : Option Int) (net : SentRequest → Response),
        ActionService.getAllActions token baseUrl pp p net =
          RequestTool.get token baseUrl (ActionService.getAllActionsUrl pp p) net) := by
  refine ⟨?_, by decide, ?_, ?_, by decide, by decide,
    fun _ _ _ _ _ _ => rfl, fun _ _ _ _ _ => rfl⟩
  · intro v
    simp only [BlockStorageActionService.getAllVolumeActionsUrl, String.append_assoc]
    exact congrArg (fun t => "/volumes/" ++ (v ++ t)) (by decide)
  · intro v pp p h
    simp only [BlockStorageActionService.getAllVolumeActionsUrl]
    rw [if_neg (by simp [h])]
  · intro pp p hpp hp
    simp only [ActionService.getAllActionsUrl]
    rw [if_neg (by simp [hp]), if_neg (by simp [hpp])]

/-- Witness for C7 (amended) at concrete supplied values: `perPage = 10,
page = 2` are echoed by both endpoints. -/
theorem pagination_defaults_and_echo_witness :
    BlockStorageActionService.getAllVolumeActionsUrl "v1" (some 10) (some 2) =
      "/volumes/" ++ "v1" ++ "/actions?page=" ++ toString (2 : Int) ++ "&per_page=" ++
        toString (10 : Int) ∧
    ActionService.getAllActionsUrl (some 10) (some 2) =
      "/actions?page=" ++ toString (2 : Int) ++ "&per_page=" ++ toString (10 : Int) :=
  ⟨pagination_defaults_and_echo.2.2.1 "v1" 10 2 (by decide),
   pagination_defaults_and_echo.2.2.2.1 10 2 (by decide) (by decide)⟩

/-- Witness for C8 at a concrete address. -/
theorem unassign_always_reference_error_witness :
    FloatingIPActionService.unassignFloatingIP "1.2.3.4" =
      (none, .thrownBeforeFetch .referenceError) :=
  unassign_always_reference_error "1.2.3.4"
